import Mathlib

/-!
Verification of the HTTP client core of the MTG MCP server (`mtg_mcp_server`):
data converters, validators, parameter builders, and the request-execution
loop of `MTGAPIClient._make_request` with its retry/backoff/error policy.

The Python code is dynamically typed; JSON-shaped runtime values are embedded
as the inductive `MTG.JValue`, Python dicts as ordered association lists with
the insert-or-overwrite assignment semantics of Python dicts, and the `httpx` layer as an
environment function assigning to each attempt index the outcome the network
produces for that attempt. An execution yields both a result (normal return,
a raised error of the MTG taxonomy, or an out-of-taxonomy Python exception)
and a trace of externally visible events (throttle acquisition, upstream
request sends, backoff sleeps).
-/

namespace MTG

/-- A Python/JSON runtime value as handled by the client code. -/
inductive JValue where
  | null : JValue
  | bool (b : Bool) : JValue
  | num (n : Int) : JValue
  | str (s : String) : JValue
  | arr (elems : List JValue) : JValue
  | obj (fields : List (String × JValue)) : JValue

/-- Fields of an object: a Python dict with string keys (ordered, unique keys). -/
abbrev Fields := List (String × JValue)

/-- Python `d.get(key)`: value at the first matching key, if any. -/
def dictGet : Fields → String → Option JValue
  | [], _ => none
  | (k, v) :: rest, key => if k = key then some v else dictGet rest key

/-- Python `d[key] = val`: overwrite in place if the key exists, else append. -/
def dictSet : Fields → String → JValue → Fields
  | [], key, val => [(key, val)]
  | (k, v) :: rest, key, val =>
      if k = key then (key, val) :: rest else (k, v) :: dictSet rest key val

/-- Python `d.pop(key, default)`, removal part: drop the entry at `key`. -/
def dictRemove : Fields → String → Fields
  | [], _ => []
  | (k, v) :: rest, key => if k = key then rest else (k, v) :: dictRemove rest key

/-- Python truthiness (`if not x`) of a JSON-shaped value. -/
def JValue.truthy : JValue → Bool
  | .null => false
  | .bool b => b
  | .num n => n != 0
  | .str s => s != ""
  | .arr elems => !elems.isEmpty
  | .obj fields => !fields.isEmpty

/-- Model of `mtg_mcp_server.models.card.Card`: dataclass of 18 fields.  The Python
dataclass stores whatever runtime value the converter hands it, so every field
holds a `JValue`; the dataclass defaults are noted per field. -/
structure Card where
  id : JValue            -- required by the converter, default "" there
  name : JValue
  mana_cost : JValue     -- default None
  cmc : JValue
  colors : JValue        -- default []
  color_identity : JValue
  type : JValue
  supertypes : JValue
  types : JValue
  subtypes : JValue
  text : JValue
  power : JValue
  toughness : JValue
  loyalty : JValue
  set_name : JValue
  set_code : JValue
  rarity : JValue
  image_url : JValue

/-- Model of `mtg_mcp_server.models.set.Set`: dataclass of 7 fields. -/
structure Set where
  code : JValue
  name : JValue
  type : JValue
  release_date : JValue
  block : JValue
  online_only : JValue   -- default False
  card_count : JValue

/-- Model of `convert_card_data` (utils/data_converters.py): build a `Card` from raw
API data via `api_data.get(key, default)` for each field. -/
def convert_card_data (api_data : Fields) : Card :=
  { id := (dictGet api_data "id").getD (.str "")
    name := (dictGet api_data "name").getD (.str "")
    mana_cost := (dictGet api_data "manaCost").getD .null
    cmc := (dictGet api_data "cmc").getD .null
    colors := (dictGet api_data "colors").getD (.arr [])
    color_identity := (dictGet api_data "colorIdentity").getD (.arr [])
    type := (dictGet api_data "type").getD .null
    supertypes := (dictGet api_data "supertypes").getD (.arr [])
    types := (dictGet api_data "types").getD (.arr [])
    subtypes := (dictGet api_data "subtypes").getD (.arr [])
    text := (dictGet api_data "text").getD .null
    power := (dictGet api_data "power").getD .null
    toughness := (dictGet api_data "toughness").getD .null
    loyalty := (dictGet api_data "loyalty").getD .null
    set_name := (dictGet api_data "setName").getD .null
    set_code := (dictGet api_data "set").getD .null
    rarity := (dictGet api_data "rarity").getD .null
    image_url := (dictGet api_data "imageUrl").getD .null }

/-- Model of `convert_set_data` (utils/data_converters.py). -/
def convert_set_data (api_data : Fields) : Set :=
  { code := (dictGet api_data "code").getD (.str "")
    name := (dictGet api_data "name").getD (.str "")
    type := (dictGet api_data "type").getD .null
    release_date := (dictGet api_data "releaseDate").getD .null
    block := (dictGet api_data "block").getD .null
    online_only := (dictGet api_data "onlineOnly").getD (.bool false)
    card_count := (dictGet api_data "cardCount").getD .null }

/-- The closed error taxonomy of `models/exceptions.py`.  Each constructor
carries the `message` attribute; `apiError` carries the optional
`status_code` the base constructor stores, `serverError` its mandatory one
(`rateLimited` and `notFound` fix theirs to 429 and 404). -/
inductive MTGError where
  | apiError (message : String) (statusCode : Option Nat)
  | connectionError (message : String)
  | timeoutError (message : String)
  | rateLimited (message : String)
  | notFound (message : String)
  | serverError (message : String) (statusCode : Nat)
  | validationError (message : String)

/-- Python `str(e)` for these exceptions: the stored message. -/
def MTGError.message : MTGError → String
  | .apiError m _ => m
  | .connectionError m => m
  | .timeoutError m => m
  | .rateLimited m => m
  | .notFound m => m
  | .serverError m _ => m
  | .validationError m => m

/-- Python `s.strip()`: drop leading and trailing whitespace characters. -/
def pyStrip (s : String) : String :=
  ⟨((s.data.dropWhile Char.isWhitespace).reverse.dropWhile
      Char.isWhitespace).reverse⟩

/-- Model of `validate_card_name` (utils/validators.py): `if not name.strip()`. -/
def validate_card_name (name : String) : Except MTGError Unit :=
  if pyStrip name = "" then .error (.validationError "Card name cannot be empty")
  else .ok ()

/-- Model of `validate_card_id` (utils/validators.py): `if not card_id.strip()`. -/
def validate_card_id (card_id : String) : Except MTGError Unit :=
  if pyStrip card_id = "" then .error (.validationError "Card ID cannot be empty")
  else .ok ()

/-- Model of `validate_search_limit` (utils/validators.py). -/
def validate_search_limit (limit : Int) : Except MTGError Unit :=
  if 1 ≤ limit ∧ limit ≤ 50 then .ok ()
  else .error (.validationError "Limit must be between 1 and 50")

/-- Model of `validate_filter_limit` (utils/validators.py). -/
def validate_filter_limit (limit : Int) : Except MTGError Unit :=
  if 1 ≤ limit ∧ limit ≤ 100 then .ok ()
  else .error (.validationError "Limit must be between 1 and 100")

/-- Model of `validate_random_count` (utils/validators.py). -/
def validate_random_count (count : Int) : Except MTGError Unit :=
  if 1 ≤ count ∧ count ≤ 10 then .ok ()
  else .error (.validationError "Count must be between 1 and 10")

/-- Model of `build_search_params` (utils/param_processors.py). -/
def build_search_params (name : String) (limit : Int) : Fields :=
  [("name", .str name), ("pageSize", .num limit)]

/-- Python `",".join(value)`: succeeds only when every element is a string
(otherwise the interpreter raises `TypeError`, modelled as `none`). -/
def joinComma (elems : List JValue) : Option String :=
  (elems.mapM fun v : JValue =>
    match v with | .str s => some s | _ => (none : Option String)).map
    (String.intercalate ",")

/-- The body of the `for key, value in filters.items()` loop of
`build_filter_params`, folded over the remaining items with the params dict
built so far.  `none` models a `TypeError` escaping from `",".join`. -/
def buildFilterLoop : List (String × JValue) → Fields → Option Fields
  | [], params => some params
  | (key, value) :: rest, params =>
      if key = "colors" then
        match value with
        | .arr elems =>
            match joinComma elems with
            | some s => buildFilterLoop rest (dictSet params "colors" (.str s))
            | none => none
        | v => buildFilterLoop rest (dictSet params key v)
      else buildFilterLoop rest (dictSet params key value)

/-- Model of `build_filter_params` (utils/param_processors.py): start from
a dict holding only pageSize = limit and run the item loop.  The `limit` argument keeps its
runtime value (the Python parameter is only annotated `int`). -/
def build_filter_params (filters : List (String × JValue)) (limit : JValue) :
    Option Fields :=
  buildFilterLoop filters [("pageSize", limit)]

/-- Model of `build_random_params` (utils/param_processors.py). -/
def build_random_params (count : Int) : Fields :=
  [("random", .str "true"), ("pageSize", .num count)]

/-! ## Request execution (`MTGAPIClient._make_request`)

The network is an environment assigning to each attempt index the outcome of
the `await session.request(...)` call (together with `response.json()`) on
that attempt.  Externally visible behaviour is recorded as a trace of events.
-/

/-- What the network produces for one attempt of the retry loop. -/
inductive AttemptResult where
  | response (status : Nat) (body : Fields)
  | timeoutExc                    -- httpx.TimeoutException
  | connectExc                    -- httpx.ConnectError
  | otherExc (msg : String)       -- any other exception from the attempt

/-- Externally visible events of one request execution. -/
inductive Event where
  | throttleAcquire
  | request (method endpoint : String) (params : Option Fields) (attempt : Nat)
  | sleep (seconds : Nat)

/-- Exceptions as they travel through the `try`/`except` chain of the loop. -/
inductive PyExc where
  | httpxTimeout
  | httpxConnect
  | mtg (e : MTGError)
  | otherError (msg : String)

/-- Python `str(e)` for an exception caught by the blanket handler. -/
def PyExc.toMsg : PyExc → String
  | .httpxTimeout => "httpx.TimeoutException"
  | .httpxConnect => "httpx.ConnectError"
  | .mtg e => e.message
  | .otherError m => m

/-- Outcome of the `try` body of one loop iteration. -/
inductive TryOutcome where
  | ret (body : Fields)                -- `return response.json()`
  | raiseExc (e : PyExc)               -- an exception reaches the handlers
  | backoffContinue (seconds : Nat)    -- `await asyncio.sleep(...)`; `continue`

/-- Outcome of the `except` chain for one caught exception. -/
inductive HandlerOutcome where
  | raiseErr (e : MTGError)
  | backoffContinue (seconds : Nat)

/-- The `try` body of the loop of `_make_request` (client.py lines 68–90):
status dispatch on the response, primitive exceptions passed to the handlers. -/
def tryBody (outcome : AttemptResult) (attempt : Nat) : TryOutcome :=
  match outcome with
  | .response status body =>
      if status = 200 then .ret body
      else if status = 404 then
        .raiseExc (.mtg (.notFound "Resource not found"))
      else if status = 429 then
        .raiseExc (.mtg (.rateLimited "Rate limit exceeded, please try again later"))
      else if status ≥ 500 then
        if attempt < 2 then .backoffContinue (2 ^ attempt)
        else .raiseExc (.mtg (.serverError "MTG API service unavailable" status))
      else
        .raiseExc (.mtg (.apiError ("API request failed: " ++ toString status)
          (some status)))
  | .timeoutExc => .raiseExc .httpxTimeout
  | .connectExc => .raiseExc .httpxConnect
  | .otherExc m => .raiseExc (.otherError m)

/-- Instance test against the tuple of the third `except` clause
(`MTGAPINotFoundError, MTGAPIRateLimitError, MTGAPITimeoutError,
MTGAPIConnectionError, MTGAPIServerError`) — the base `MTGAPIError` is not
a member of any of these classes. -/
def inNoRetryTuple : MTGError → Bool
  | .notFound _ => true
  | .rateLimited _ => true
  | .timeoutError _ => true
  | .connectionError _ => true
  | .serverError _ _ => true
  | .apiError _ _ => false
  | .validationError _ => false

/-- The `except` chain of `_make_request` (client.py lines 92–109): the first
two clauses translate the httpx exceptions, the tuple clause re-raises the
five no-retry taxonomy members, and the blanket `except Exception` catches
everything else — including the base `MTGAPIError` raised for "any other
status code" — retrying with backoff while attempts remain and otherwise
re-wrapping the exception, losing any status code it carried. -/
def handleExc (e : PyExc) (attempt : Nat) : HandlerOutcome :=
  match e with
  | .httpxTimeout => .raiseErr (.timeoutError "MTG API request timed out")
  | .httpxConnect => .raiseErr (.connectionError "Unable to connect to MTG API")
  | .mtg err =>
      if inNoRetryTuple err then .raiseErr err
      else if attempt < 2 then .backoffContinue (2 ^ attempt)
      else .raiseErr (.apiError ("Unexpected error: " ++ err.message) none)
  | .otherError m =>
      if attempt < 2 then .backoffContinue (2 ^ attempt)
      else .raiseErr (.apiError ("Unexpected error: " ++ m) none)

/-- Result of a Python call: normal return, a raised error of the MTG
taxonomy, or an exception outside the taxonomy (interpreter-level failure). -/
inductive PyOutcome (α : Type) where
  | ok (val : α)
  | raised (e : MTGError)
  | crashed (msg : String)

/-- The `for attempt in range(3)` loop of `_make_request`, from attempt index
`attempt` with `fuel` iterations remaining.  The fuel-0 case corresponds to
falling off the loop, where the Python function would return `None` and the
caller would fail on `None.get`; it is unreachable from the entry point
because a `continue` only happens when `attempt < 2`. -/
def attemptLoop (env : Nat → AttemptResult) (method endpoint : String)
    (params : Option Fields) : Nat → Nat → PyOutcome Fields × List Event
  | 0, _ => (.crashed "AttributeError: NoneType has no attribute get", [])
  | fuel + 1, attempt =>
      let ev := Event.request method endpoint params attempt
      match tryBody (env attempt) attempt with
      | .ret body => (.ok body, [ev])
      | .backoffContinue s =>
          let next := attemptLoop env method endpoint params fuel (attempt + 1)
          (next.1, ev :: .sleep s :: next.2)
      | .raiseExc e =>
          match handleExc e attempt with
          | .raiseErr err => (.raised err, [ev])
          | .backoffContinue s =>
              let next := attemptLoop env method endpoint params fuel (attempt + 1)
              (next.1, ev :: .sleep s :: next.2)

/-- Model of `_make_request`: acquire the throttler (`async with self._throttler`),
then run the 3-attempt loop. -/
def makeRequest (env : Nat → AttemptResult) (method endpoint : String)
    (params : Option Fields := none) : PyOutcome Fields × List Event :=
  let out := attemptLoop env method endpoint params 3 0
  (out.1, .throttleAcquire :: out.2)

/-! ## Client operations (search, fetch-by-id, filter, random) -/

/-- The `for card_data in response.get("cards", [])` loop shared by the card
operations: convert each entry.  A non-object entry makes `card_data.get`
raise `AttributeError`; a non-list `cards` value makes the loop itself fail. -/
def parseCards (body : Fields) : PyOutcome (List Card) :=
  match (dictGet body "cards").getD (.arr []) with
  | .arr elems =>
      match elems.mapM (fun v : JValue =>
          match v with
          | .obj fs => some (convert_card_data fs)
          | _ => (none : Option Card)) with
      | some cards => .ok cards
      | none => .crashed "AttributeError: no attribute get"
  | _ => .crashed "TypeError: cards value is not iterable as card objects"

/-- Model of `MTGAPIClient.search_cards`: validate the name and the limit, build the
search params and run one request execution. -/
def search_cards (env : Nat → AttemptResult) (name : String) (limit : Int) :
    PyOutcome (List Card) × List Event :=
  match validate_card_name name with
  | .error e => (.raised e, [])
  | .ok _ =>
  match validate_search_limit limit with
  | .error e => (.raised e, [])
  | .ok _ =>
    let params := build_search_params name limit
    let out := makeRequest env "GET" "/cards" (some params)
    match out.1 with
    | .ok body => (parseCards body, out.2)
    | .raised e => (.raised e, out.2)
    | .crashed m => (.crashed m, out.2)

/-- Model of `MTGAPIClient.get_card`: validate the id, request `/cards/{card_id}`,
and raise not-found when `response.get("card")` is falsy. -/
def get_card (env : Nat → AttemptResult) (card_id : String) :
    PyOutcome Card × List Event :=
  match validate_card_id card_id with
  | .error e => (.raised e, [])
  | .ok _ =>
    let out := makeRequest env "GET" ("/cards/" ++ card_id) none
    match out.1 with
    | .ok body =>
        let card_data := (dictGet body "card").getD .null
        if card_data.truthy then
          match card_data with
          | .obj fs => (.ok (convert_card_data fs), out.2)
          | _ => (.crashed "AttributeError: no attribute get", out.2)
        else
          (.raised (.notFound ("Card with ID " ++ card_id ++ " not found")), out.2)
    | .raised e => (.raised e, out.2)
    | .crashed m => (.crashed m, out.2)

/-- Model of `MTGAPIClient.filter_cards`: pop `limit` from the filters dict (default
20), validate it, build the filter params and run one request execution.  A
non-integer popped limit makes the chained comparison in
`validate_filter_limit` raise `TypeError` before any request. -/
def filter_cards (env : Nat → AttemptResult) (filters : List (String × JValue)) :
    PyOutcome (List Card) × List Event :=
  let limitVal := (dictGet filters "limit").getD (.num 20)
  let rest := dictRemove filters "limit"
  match limitVal with
  | .num n =>
      (match validate_filter_limit n with
      | .error e => (.raised e, [])
      | .ok _ =>
        match build_filter_params rest (.num n) with
        | none => (.crashed "TypeError: sequence item expected str instance", [])
        | some params =>
          let out := makeRequest env "GET" "/cards" (some params)
          match out.1 with
          | .ok body => (parseCards body, out.2)
          | .raised e => (.raised e, out.2)
          | .crashed m => (.crashed m, out.2))
  | _ => (.crashed "TypeError: comparison not supported for limit value", [])

/-- Model of `MTGAPIClient.get_random_cards`: validate the count, build the random
params and run one request execution. -/
def get_random_cards (env : Nat → AttemptResult) (count : Int) :
    PyOutcome (List Card) × List Event :=
  match validate_random_count count with
  | .error e => (.raised e, [])
  | .ok _ =>
    let params := build_random_params count
    let out := makeRequest env "GET" "/cards" (some params)
    match out.1 with
    | .ok body => (parseCards body, out.2)
    | .raised e => (.raised e, out.2)
    | .crashed m => (.crashed m, out.2)

/-! ## Trace observations and concrete environments used in the claims -/

/-- Is this event an upstream request send? -/
def isRequestEv : Event → Bool
  | .request _ _ _ _ => true
  | _ => false

/-- Is this event a rate-limit slot acquisition? -/
def isAcquireEv : Event → Bool
  | .throttleAcquire => true
  | _ => false

/-- Is this event a backoff sleep? -/
def isSleepEv : Event → Bool
  | .sleep _ => true
  | _ => false

/-- Number of upstream attempts recorded in a trace. -/
def countRequests (trace : List Event) : Nat :=
  (trace.filter isRequestEv).length

/-- Number of throttle acquisitions recorded in a trace. -/
def countAcquires (trace : List Event) : Nat :=
  (trace.filter isAcquireEv).length

/-- Response sequence of the retry-on-5xx scenario of the spec: status 500, then
status 200 with body containing an empty cards list. -/
def env500then200 : Nat → AttemptResult := fun n =>
  if n = 0 then .response 500 [] else .response 200 [("cards", .arr [])]

/-- Every attempt answered with HTTP 400. -/
def env400 : Nat → AttemptResult := fun _ => .response 400 []

/-- Every attempt answered with HTTP 500. -/
def envAll500 : Nat → AttemptResult := fun _ => .response 500 []

/-- Every attempt answered with HTTP 404. -/
def env404 : Nat → AttemptResult := fun _ => .response 404 []

/-- Every attempt answered with HTTP 429. -/
def env429 : Nat → AttemptResult := fun _ => .response 429 []

/-- Every attempt times out. -/
def envTimeout : Nat → AttemptResult := fun _ => .timeoutExc

/-- Every attempt fails to connect. -/
def envConnect : Nat → AttemptResult := fun _ => .connectExc

/-- Every attempt answered with HTTP 200 and an empty JSON object body. -/
def env200empty : Nat → AttemptResult := fun _ => .response 200 []

/-- Every attempt answered with HTTP 200 and body containing an empty cards
list. -/
def env200noCards : Nat → AttemptResult := fun _ =>
  .response 200 [("cards", .arr [])]

/-- An upstream card object with every field present. -/
def fullCardFixture : Fields :=
  [("id", .str "1"), ("name", .str "Lightning Bolt"), ("manaCost", .str "R"),
    ("cmc", .num 1), ("colors", .arr [.str "Red"]),
    ("colorIdentity", .arr [.str "R"]), ("type", .str "Instant"),
    ("supertypes", .arr []), ("types", .arr [.str "Instant"]),
    ("subtypes", .arr []), ("text", .str "Deals 3 damage to any target."),
    ("power", .null), ("toughness", .null), ("loyalty", .null),
    ("setName", .str "Limited Edition Alpha"), ("set", .str "LEA"),
    ("rarity", .str "Common"), ("imageUrl", .str "http://example.com/image.jpg")]

/-! ## Lemmas about dict operations and the filter-params loop -/

theorem dictGet_dictSet_self (d : Fields) (k : String) (v : JValue) :
    dictGet (dictSet d k v) k = some v := by
  induction d with
  | nil => simp [dictGet, dictSet]
  | cons hd tl ih =>
      obtain ⟨k₁, v₁⟩ := hd
      by_cases h : k₁ = k
      · simp [dictSet, h, dictGet]
      · simp [dictSet, h, dictGet, ih]

theorem dictGet_dictSet_ne (d : Fields) (k' k : String) (v : JValue)
    (h : k' ≠ k) : dictGet (dictSet d k' v) k = dictGet d k := by
  induction d with
  | nil => simp [dictGet, dictSet, h]
  | cons hd tl ih =>
      obtain ⟨k₁, v₁⟩ := hd
      by_cases h₁ : k₁ = k'
      · subst h₁
        simp [dictSet, dictGet, h]
      · simp only [dictSet, if_neg h₁]
        by_cases h₂ : k₁ = k
        · simp [dictGet, h₂]
        · simp [dictGet, h₂, ih]

theorem dictGet_dictSet_isSome (d : Fields) (k' k : String) (v : JValue)
    (h : (dictGet d k).isSome) : (dictGet (dictSet d k' v) k).isSome := by
  by_cases hk : k' = k
  · subst hk; simp [dictGet_dictSet_self]
  · rwa [dictGet_dictSet_ne d k' k v hk]

/-- Every successful iteration of the filter-params loop writes exactly the
key of the current item (with some value) into the params dict. -/
theorem buildFilterLoop_cons_ex (key : String) (value : JValue)
    (tl : List (String × JValue)) (params ps : Fields)
    (h : buildFilterLoop ((key, value) :: tl) params = some ps) :
    ∃ w, buildFilterLoop tl (dictSet params key w) = some ps := by
  by_cases hc : key = "colors"
  · subst hc
    cases value with
    | arr elems =>
        simp only [buildFilterLoop, if_pos rfl] at h
        cases hj : joinComma elems with
        | none => rw [hj] at h; exact absurd h (by simp)
        | some s => rw [hj] at h; exact ⟨.str s, h⟩
    | null => exact ⟨_, h⟩
    | bool b => exact ⟨_, h⟩
    | num n => exact ⟨_, h⟩
    | str s => exact ⟨_, h⟩
    | obj fs => exact ⟨_, h⟩
  · simp only [buildFilterLoop, if_neg hc] at h
    exact ⟨value, h⟩

/-- A non-`colors` item ends its iteration by writing its value unchanged. -/
theorem buildFilterLoop_cons_ne (key : String) (value : JValue)
    (tl : List (String × JValue)) (params ps : Fields) (hc : key ≠ "colors")
    (h : buildFilterLoop ((key, value) :: tl) params = some ps) :
    buildFilterLoop tl (dictSet params key value) = some ps := by
  simpa only [buildFilterLoop, if_neg hc] using h

/-- A `colors` item holding a list of strings writes the comma-join. -/
theorem buildFilterLoop_cons_colors (elems : List JValue) (s : String)
    (tl : List (String × JValue)) (params ps : Fields)
    (hj : joinComma elems = some s)
    (h : buildFilterLoop (("colors", .arr elems) :: tl) params = some ps) :
    buildFilterLoop tl (dictSet params "colors" (.str s)) = some ps := by
  simp only [buildFilterLoop, if_pos rfl, hj] at h
  exact h

/-- Keys present in the params dict stay present through the loop. -/
theorem buildFilterLoop_isSome (rest : List (String × JValue)) :
    ∀ params ps : Fields, buildFilterLoop rest params = some ps →
    ∀ k, (dictGet params k).isSome → (dictGet ps k).isSome := by
  induction rest with
  | nil =>
      intro params ps h k hk
      simp only [buildFilterLoop, Option.some.injEq] at h
      subst h; exact hk
  | cons hd tl ih =>
      intro params ps h k hk
      obtain ⟨key, value⟩ := hd
      obtain ⟨w, hw⟩ := buildFilterLoop_cons_ex key value tl params ps h
      exact ih _ _ hw k (dictGet_dictSet_isSome _ _ _ _ hk)

/-- Keys not written by the loop keep their value from the params dict. -/
theorem buildFilterLoop_not_mem (rest : List (String × JValue)) :
    ∀ params ps : Fields, buildFilterLoop rest params = some ps →
    ∀ k, k ∉ rest.map Prod.fst → dictGet ps k = dictGet params k := by
  induction rest with
  | nil =>
      intro params ps h k _
      simp only [buildFilterLoop, Option.some.injEq] at h
      subst h; rfl
  | cons hd tl ih =>
      intro params ps h k hk
      obtain ⟨key, value⟩ := hd
      simp only [List.map_cons, List.mem_cons] at hk
      push_neg at hk
      obtain ⟨w, hw⟩ := buildFilterLoop_cons_ex key value tl params ps h
      rw [ih _ _ hw k (by simpa using hk.2)]
      exact dictGet_dictSet_ne _ _ _ _ (fun e => hk.1 e.symm)

/-- Under unique keys, a non-`colors` filter item ends up in the built params
with its value unchanged. -/
theorem buildFilterLoop_mem (filters : List (String × JValue)) :
    ∀ params ps : Fields, (filters.map Prod.fst).Nodup →
    buildFilterLoop filters params = some ps →
    ∀ k v, (k, v) ∈ filters → k ≠ "colors" → dictGet ps k = some v := by
  induction filters with
  | nil => intro _ _ _ _ k v hm; exact absurd hm (List.not_mem_nil _)
  | cons hd tl ih =>
      intro params ps hnd h k v hm hc
      obtain ⟨key, value⟩ := hd
      simp only [List.map_cons, List.nodup_cons] at hnd
      rcases List.mem_cons.mp hm with heq | htl
      · injection heq with hk hv
        subst hk; subst hv
        have hstep := buildFilterLoop_cons_ne k v tl params ps hc h
        rw [buildFilterLoop_not_mem tl _ _ hstep k hnd.1]
        exact dictGet_dictSet_self _ _ _
      · obtain ⟨w, hw⟩ := buildFilterLoop_cons_ex key value tl params ps h
        exact ih _ _ hnd.2 hw k v htl hc

/-- Under unique keys, a `colors` filter item holding a list of strings ends
up in the built params as the comma-joined string. -/
theorem buildFilterLoop_mem_colors (filters : List (String × JValue)) :
    ∀ params ps : Fields, (filters.map Prod.fst).Nodup →
    buildFilterLoop filters params = some ps →
    ∀ elems s, ("colors", JValue.arr elems) ∈ filters → joinComma elems = some s →
    dictGet ps "colors" = some (.str s) := by
  induction filters with
  | nil => intro _ _ _ _ elems s hm; exact absurd hm (List.not_mem_nil _)
  | cons hd tl ih =>
      intro params ps hnd h elems s hm hj
      obtain ⟨key, value⟩ := hd
      simp only [List.map_cons, List.nodup_cons] at hnd
      rcases List.mem_cons.mp hm with heq | htl
      · injection heq with hk hv
        subst hk; subst hv
        have hstep := buildFilterLoop_cons_colors elems s tl params ps hj h
        rw [buildFilterLoop_not_mem tl _ _ hstep "colors" hnd.1]
        exact dictGet_dictSet_self _ _ _
      · obtain ⟨w, hw⟩ := buildFilterLoop_cons_ex key value tl params ps h
        exact ih _ _ hnd.2 hw elems s htl hj

/-! ## Lemmas about the request-execution loop -/

/-- As long as an iteration remains, the first event of the loop is the upstream
request send of the current attempt. -/
theorem attemptLoop_trace_head (env : Nat → AttemptResult)
    (method endpoint : String) (params : Option Fields) (fuel attempt : Nat) :
    ∃ t, (attemptLoop env method endpoint params (fuel + 1) attempt).2 =
      Event.request method endpoint params attempt :: t := by
  cases h : tryBody (env attempt) attempt with
  | ret body => exact ⟨[], by simp [attemptLoop, h]⟩
  | backoffContinue s =>
      exact ⟨Event.sleep s ::
        (attemptLoop env method endpoint params fuel (attempt + 1)).2,
        by simp [attemptLoop, h]⟩
  | raiseExc e =>
      cases h2 : handleExc e attempt with
      | raiseErr err => exact ⟨[], by simp [attemptLoop, h, h2]⟩
      | backoffContinue s =>
          exact ⟨Event.sleep s ::
            (attemptLoop env method endpoint params fuel (attempt + 1)).2,
            by simp [attemptLoop, h, h2]⟩

/-- The retry loop itself never acquires the throttle: the single acquisition
of a request execution happens before the loop is entered. -/
theorem attemptLoop_no_acquire (env : Nat → AttemptResult)
    (method endpoint : String) (params : Option Fields) :
    ∀ fuel attempt,
      Event.throttleAcquire ∉ (attemptLoop env method endpoint params fuel attempt).2 := by
  intro fuel
  induction fuel with
  | zero => intro attempt; simp [attemptLoop]
  | succ n ih =>
      intro attempt
      cases h : tryBody (env attempt) attempt with
      | ret body => simp [attemptLoop, h]
      | backoffContinue s => simp [attemptLoop, h, ih (attempt + 1)]
      | raiseExc e =>
          cases h2 : handleExc e attempt with
          | raiseErr err => simp [attemptLoop, h, h2]
          | backoffContinue s => simp [attemptLoop, h, h2, ih (attempt + 1)]

/-- A 5xx response on a non-final attempt makes the try body back off for
`2 ^ attempt` and continue. -/
theorem tryBody_server_retry (s : Nat) (body : Fields) (attempt : Nat)
    (hs : 500 ≤ s) (ha : attempt < 2) :
    tryBody (.response s body) attempt = .backoffContinue (2 ^ attempt) := by
  have h200 : ¬(s = 200) := by omega
  have h404 : ¬(s = 404) := by omega
  have h429 : ¬(s = 429) := by omega
  simp [tryBody, h200, h404, h429, hs, ha]

/-- A 5xx response on the final attempt makes the try body raise
`MTGAPIServerError` carrying the status code. -/
theorem tryBody_server_final (s : Nat) (body : Fields) (hs : 500 ≤ s) :
    tryBody (.response s body) 2 =
      .raiseExc (.mtg (.serverError "MTG API service unavailable" s)) := by
  have h200 : ¬(s = 200) := by omega
  have h404 : ¬(s = 404) := by omega
  have h429 : ¬(s = 429) := by omega
  simp [tryBody, h200, h404, h429, hs]

/-- Any status other than 200/404/429/5xx makes the try body raise the base
`MTGAPIError` carrying the status code. -/
theorem tryBody_other_status (s : Nat) (body : Fields) (attempt : Nat)
    (h200 : s ≠ 200) (h404 : s ≠ 404) (h429 : s ≠ 429) (h5 : s < 500) :
    tryBody (.response s body) attempt =
      .raiseExc (.mtg (.apiError ("API request failed: " ++ toString s) (some s))) := by
  have h5' : ¬(500 ≤ s) := by omega
  simp [tryBody, h200, h404, h429, h5']

/-! ## Claim theorems -/

/-- C1: a 5xx response on attempt 1 of 3 causes a wait of 2^0 = 1 time-unit
followed by a retry (attempt 2 is sent next); a 5xx on attempt 2 of 3 causes
a wait of 2^1 = 2 time-units followed by a retry (attempt 3 is sent next);
a 5xx on the final attempt raises a server error carrying the status code;
and for the response sequence [status 500, status 200 with body
containing an empty cards list] the client returns the 200 body after
exactly 2 upstream attempts. -/
theorem retry_on_5xx_with_backoff :
    (∀ (env : Nat → AttemptResult) (method endpoint : String)
        (params : Option Fields) (s : Nat) (body : Fields),
      500 ≤ s → env 0 = .response s body →
      makeRequest env method endpoint params =
        ((attemptLoop env method endpoint params 2 1).1,
          .throttleAcquire :: .request method endpoint params 0 :: .sleep 1 ::
            (attemptLoop env method endpoint params 2 1).2) ∧
      ∃ t, (attemptLoop env method endpoint params 2 1).2 =
        Event.request method endpoint params 1 :: t)
    ∧ (∀ (env : Nat → AttemptResult) (method endpoint : String)
        (params : Option Fields) (s : Nat) (body : Fields),
      500 ≤ s → env 1 = .response s body →
      attemptLoop env method endpoint params 2 1 =
        ((attemptLoop env method endpoint params 1 2).1,
          .request method endpoint params 1 :: .sleep 2 ::
            (attemptLoop env method endpoint params 1 2).2) ∧
      ∃ t, (attemptLoop env method endpoint params 1 2).2 =
        Event.request method endpoint params 2 :: t)
    ∧ (∀ (env : Nat → AttemptResult) (method endpoint : String)
        (params : Option Fields) (s : Nat) (body : Fields),
      500 ≤ s → env 2 = .response s body →
      attemptLoop env method endpoint params 1 2 =
        (.raised (.serverError "MTG API service unavailable" s),
          [.request method endpoint params 2]))
    ∧ (makeRequest env500then200 "GET" "/cards" none =
        (.ok [("cards", .arr [])],
          [.throttleAcquire, .request "GET" "/cards" none 0, .sleep 1,
            .request "GET" "/cards" none 1])
      ∧ countRequests (makeRequest env500then200 "GET" "/cards" none).2 = 2) := by
  refine ⟨?_, ?_, ?_, rfl, rfl⟩
  · intro env method endpoint params s body hs henv
    have h1 : tryBody (env 0) 0 = .backoffContinue 1 := by
      rw [henv]; simpa using tryBody_server_retry s body 0 hs (by omega)
    exact ⟨by simp [makeRequest, attemptLoop, h1],
      attemptLoop_trace_head env method endpoint params 1 1⟩
  · intro env method endpoint params s body hs henv
    have h1 : tryBody (env 1) 1 = .backoffContinue 2 := by
      rw [henv]; simpa using tryBody_server_retry s body 1 hs (by omega)
    exact ⟨by simp [attemptLoop, h1],
      attemptLoop_trace_head env method endpoint params 0 2⟩
  · intro env method endpoint params s body hs henv
    have h1 : tryBody (env 2) 2 =
        .raiseExc (.mtg (.serverError "MTG API service unavailable" s)) := by
      rw [henv]; exact tryBody_server_final s body hs
    simp [attemptLoop, h1, handleExc, inNoRetryTuple]

/-- C1 witness: instantiation at the all-500 environment. -/
theorem retry_on_5xx_with_backoff_witness :
    makeRequest envAll500 "GET" "/cards" none =
      ((attemptLoop envAll500 "GET" "/cards" none 2 1).1,
        .throttleAcquire :: .request "GET" "/cards" none 0 :: .sleep 1 ::
          (attemptLoop envAll500 "GET" "/cards" none 2 1).2) :=
  (retry_on_5xx_with_backoff.1 envAll500 "GET" "/cards" none 500 []
    (by omega) rfl).1

/-- C2 counterexample: with every attempt answered by HTTP 400, the request
execution makes 3 upstream attempts (not exactly one), sleeps 1 and then 2
time-units in between, and the error finally raised carries no status code —
the base `MTGAPIError` raised for status 400 is caught by the blanket
`except Exception` handler and retried, then re-wrapped. -/
theorem other_status_no_retry_counterexample :
    countRequests (makeRequest env400 "GET" "/cards" none).2 = 3
    ∧ countRequests (makeRequest env400 "GET" "/cards" none).2 ≠ 1
    ∧ (makeRequest env400 "GET" "/cards" none).1 =
        .raised (.apiError "Unexpected error: API request failed: 400" none)
    ∧ (makeRequest env400 "GET" "/cards" none).2 =
        [.throttleAcquire, .request "GET" "/cards" none 0, .sleep 1,
          .request "GET" "/cards" none 1, .sleep 2,
          .request "GET" "/cards" none 2] :=
  ⟨rfl, by decide, rfl, rfl⟩

/-- C2 amended: a status code other than 200, 404, 429 and ≥500 makes the try
body raise a generic API error carrying the status code, but the blanket
`except Exception` clause catches it: on attempts 1 and 2 of 3 the client
waits 2^attempt_index time-units and retries, and on the final attempt it
raises a generic API error whose message wraps the original
("Unexpected error: API request failed: {status}") and which carries no
status code. -/
theorem other_status_retried_and_wrapped :
    (∀ (env : Nat → AttemptResult) (method endpoint : String)
        (params : Option Fields) (s : Nat) (body : Fields),
      s ≠ 200 → s ≠ 404 → s ≠ 429 → s < 500 → env 0 = .response s body →
      makeRequest env method endpoint params =
        ((attemptLoop env method endpoint params 2 1).1,
          .throttleAcquire :: .request method endpoint params 0 :: .sleep 1 ::
            (attemptLoop env method endpoint params 2 1).2))
    ∧ (∀ (env : Nat → AttemptResult) (method endpoint : String)
        (params : Option Fields) (s : Nat) (body : Fields),
      s ≠ 200 → s ≠ 404 → s ≠ 429 → s < 500 → env 1 = .response s body →
      attemptLoop env method endpoint params 2 1 =
        ((attemptLoop env method endpoint params 1 2).1,
          .request method endpoint params 1 :: .sleep 2 ::
            (attemptLoop env method endpoint params 1 2).2))
    ∧ (∀ (env : Nat → AttemptResult) (method endpoint : String)
        (params : Option Fields) (s : Nat) (body : Fields),
      s ≠ 200 → s ≠ 404 → s ≠ 429 → s < 500 → env 2 = .response s body →
      attemptLoop env method endpoint params 1 2 =
        (.raised (.apiError ("Unexpected error: " ++
            ("API request failed: " ++ toString s)) none),
          [.request method endpoint params 2])) := by
  refine ⟨?_, ?_, ?_⟩
  · intro env method endpoint params s body h200 h404 h429 h5 henv
    have h1 : tryBody (env 0) 0 =
        .raiseExc (.mtg (.apiError ("API request failed: " ++ toString s)
          (some s))) := by
      rw [henv]; exact tryBody_other_status s body 0 h200 h404 h429 h5
    have h2 : handleExc (.mtg (.apiError ("API request failed: " ++ toString s)
        (some s))) 0 = .backoffContinue 1 := by
      simp [handleExc, inNoRetryTuple]
    simp [makeRequest, attemptLoop, h1, h2]
  · intro env method endpoint params s body h200 h404 h429 h5 henv
    have h1 : tryBody (env 1) 1 =
        .raiseExc (.mtg (.apiError ("API request failed: " ++ toString s)
          (some s))) := by
      rw [henv]; exact tryBody_other_status s body 1 h200 h404 h429 h5
    have h2 : handleExc (.mtg (.apiError ("API request failed: " ++ toString s)
        (some s))) 1 = .backoffContinue 2 := by
      simp [handleExc, inNoRetryTuple]
    simp [attemptLoop, h1, h2]
  · intro env method endpoint params s body h200 h404 h429 h5 henv
    have h1 : tryBody (env 2) 2 =
        .raiseExc (.mtg (.apiError ("API request failed: " ++ toString s)
          (some s))) := by
      rw [henv]; exact tryBody_other_status s body 2 h200 h404 h429 h5
    have h2 : handleExc (.mtg (.apiError ("API request failed: " ++ toString s)
        (some s))) 2 =
        .raiseErr (.apiError ("Unexpected error: " ++
          ("API request failed: " ++ toString s)) none) := by
      simp [handleExc, inNoRetryTuple, MTGError.message]
    simp [attemptLoop, h1, h2]

/-- C2 amended witness: instantiation at the all-400 environment. -/
theorem other_status_retried_and_wrapped_witness :
    makeRequest env400 "GET" "/cards" none =
      ((attemptLoop env400 "GET" "/cards" none 2 1).1,
        .throttleAcquire :: .request "GET" "/cards" none 0 :: .sleep 1 ::
          (attemptLoop env400 "GET" "/cards" none 2 1).2) :=
  other_status_retried_and_wrapped.1 env400 "GET" "/cards" none 400 []
    (by decide) (by decide) (by decide) (by decide) rfl

/-- C3: HTTP 404 raises not-found, HTTP 429 raises rate-limited, a network
timeout raises a timeout error, and a connection failure raises a connection
error — each after exactly one upstream attempt, with no retry and no
backoff sleep (the trace is exactly one throttle acquisition followed by one
request send). -/
theorem fail_fast_on_404_429_timeout_connect :
    (∀ (env : Nat → AttemptResult) (method endpoint : String)
        (params : Option Fields) (body : Fields),
      env 0 = .response 404 body →
      makeRequest env method endpoint params =
        (.raised (.notFound "Resource not found"),
          [.throttleAcquire, .request method endpoint params 0]))
    ∧ (∀ (env : Nat → AttemptResult) (method endpoint : String)
        (params : Option Fields) (body : Fields),
      env 0 = .response 429 body →
      makeRequest env method endpoint params =
        (.raised (.rateLimited "Rate limit exceeded, please try again later"),
          [.throttleAcquire, .request method endpoint params 0]))
    ∧ (∀ (env : Nat → AttemptResult) (method endpoint : String)
        (params : Option Fields),
      env 0 = .timeoutExc →
      makeRequest env method endpoint params =
        (.raised (.timeoutError "MTG API request timed out"),
          [.throttleAcquire, .request method endpoint params 0]))
    ∧ (∀ (env : Nat → AttemptResult) (method endpoint : String)
        (params : Option Fields),
      env 0 = .connectExc →
      makeRequest env method endpoint params =
        (.raised (.connectionError "Unable to connect to MTG API"),
          [.throttleAcquire, .request method endpoint params 0])) := by
  refine ⟨?_, ?_, ?_, ?_⟩
  · intro env method endpoint params body henv
    have h1 : tryBody (env 0) 0 =
        .raiseExc (.mtg (.notFound "Resource not found")) := by
      rw [henv]; simp [tryBody]
    simp [makeRequest, attemptLoop, h1, handleExc, inNoRetryTuple]
  · intro env method endpoint params body henv
    have h1 : tryBody (env 0) 0 =
        .raiseExc (.mtg (.rateLimited "Rate limit exceeded, please try again later")) := by
      rw [henv]; simp [tryBody]
    simp [makeRequest, attemptLoop, h1, handleExc, inNoRetryTuple]
  · intro env method endpoint params henv
    have h1 : tryBody (env 0) 0 = .raiseExc .httpxTimeout := by
      rw [henv]; simp [tryBody]
    simp [makeRequest, attemptLoop, h1, handleExc]
  · intro env method endpoint params henv
    have h1 : tryBody (env 0) 0 = .raiseExc .httpxConnect := by
      rw [henv]; simp [tryBody]
    simp [makeRequest, attemptLoop, h1, handleExc]

/-- C3 witness: instantiation at the all-404 environment. -/
theorem fail_fast_witness :
    makeRequest env404 "GET" "/cards" none =
      (.raised (.notFound "Resource not found"),
        [.throttleAcquire, .request "GET" "/cards" none 0]) :=
  fail_fast_on_404_429_timeout_connect.1 env404 "GET" "/cards" none [] rfl

/-- C5: every request execution acquires the throttle first — the trace
opens with the acquisition, every upstream request send in the trace is
strictly after an index holding the acquisition, and the whole retry
sequence (all of its attempts, including those after a backoff sleep) shares
that single acquisition of the one shared throttle. -/
theorem throttle_acquired_before_attempts :
    ∀ (env : Nat → AttemptResult) (method endpoint : String)
      (params : Option Fields),
      (makeRequest env method endpoint params).2.head? =
        some Event.throttleAcquire
      ∧ (∀ i e, (makeRequest env method endpoint params).2.get? i = some e →
          isRequestEv e = true →
          0 < i ∧ (makeRequest env method endpoint params).2.get? 0 =
            some Event.throttleAcquire)
      ∧ countAcquires (makeRequest env method endpoint params).2 = 1 := by
  intro env method endpoint params
  refine ⟨rfl, ?_, ?_⟩
  · intro i e hget hreq
    cases i with
    | zero =>
        have he : e = Event.throttleAcquire := by
          simpa [makeRequest] using hget.symm
        rw [he] at hreq
        exact absurd hreq (by simp [isRequestEv])
    | succ j => exact ⟨Nat.succ_pos j, rfl⟩
  · have hno : ∀ a ∈ (attemptLoop env method endpoint params 3 0).2,
        ¬(isAcquireEv a = true) := by
      intro a ha hacq
      cases a with
      | throttleAcquire =>
          exact attemptLoop_no_acquire env method endpoint params 3 0 ha
      | request m e p att => simp [isAcquireEv] at hacq
      | sleep s => simp [isAcquireEv] at hacq
    have hfil : (attemptLoop env method endpoint params 3 0).2.filter
        isAcquireEv = [] := List.filter_eq_nil_iff.mpr hno
    simp [makeRequest, countAcquires, List.filter_cons, isAcquireEv, hfil]

/-- C5 witness: instantiation at the all-404 environment, request at index 1. -/
theorem throttle_acquired_before_attempts_witness :
    0 < 1 ∧ (makeRequest env404 "GET" "/cards" none).2.get? 0 =
      some Event.throttleAcquire :=
  (throttle_acquired_before_attempts env404 "GET" "/cards" none).2.1 1
    (.request "GET" "/cards" none 0) rfl rfl

/-- The trace of every request execution opens with the throttle acquisition
followed by the attempt-0 request send. -/
theorem makeRequest_trace_shape (env : Nat → AttemptResult)
    (method endpoint : String) (params : Option Fields) :
    ∃ t, (makeRequest env method endpoint params).2 =
      Event.throttleAcquire :: Event.request method endpoint params 0 :: t := by
  obtain ⟨t, ht⟩ := attemptLoop_trace_head env method endpoint params 2 0
  exact ⟨t, by simp [makeRequest, ht]⟩

/-- On valid inputs, `search_cards` performs exactly the events of one
request execution with the built search params. -/
theorem search_cards_trace (env : Nat → AttemptResult) (name : String)
    (limit : Int) (h1 : pyStrip name ≠ "") (h2 : 1 ≤ limit) (h3 : limit ≤ 50) :
    (search_cards env name limit).2 =
      (makeRequest env "GET" "/cards" (some (build_search_params name limit))).2 := by
  have hv1 : validate_card_name name = .ok () := by
    simp [validate_card_name, h1]
  have hv2 : validate_search_limit limit = .ok () := by
    simp [validate_search_limit, h2, h3]
  simp only [search_cards, hv1, hv2]
  split <;> rfl

/-- C4: input validation runs before any network I/O — a validation failure
raises a validation error with the fixed message and an empty event trace
(no throttle acquisition, no retry loop, no upstream request): empty-after-
trimming name or id, search limit outside [1,50], filter limit outside
[1,100], random count outside [1,10]; valid search inputs proceed to a
request; 0 and 51 raise with the bound message "between 1 and 50" while 1
and 50 pass, and the filter/random validators accept exactly their
inclusive bounds. -/
theorem validation_before_any_request :
    (∀ (env : Nat → AttemptResult) (name : String) (limit : Int),
      pyStrip name = "" →
      search_cards env name limit =
        (.raised (.validationError "Card name cannot be empty"), []))
    ∧ (∀ (env : Nat → AttemptResult) (name : String) (limit : Int),
      pyStrip name ≠ "" → ¬(1 ≤ limit ∧ limit ≤ 50) →
      search_cards env name limit =
        (.raised (.validationError "Limit must be between 1 and 50"), []))
    ∧ (∀ (env : Nat → AttemptResult) (card_id : String),
      pyStrip card_id = "" →
      get_card env card_id =
        (.raised (.validationError "Card ID cannot be empty"), []))
    ∧ (∀ (env : Nat → AttemptResult) (filters : List (String × JValue)) (n : Int),
      (dictGet filters "limit").getD (.num 20) = .num n →
      ¬(1 ≤ n ∧ n ≤ 100) →
      filter_cards env filters =
        (.raised (.validationError "Limit must be between 1 and 100"), []))
    ∧ (∀ (env : Nat → AttemptResult) (count : Int),
      ¬(1 ≤ count ∧ count ≤ 10) →
      get_random_cards env count =
        (.raised (.validationError "Count must be between 1 and 10"), []))
    ∧ (∀ (env : Nat → AttemptResult) (name : String) (limit : Int),
      pyStrip name ≠ "" → 1 ≤ limit → limit ≤ 50 →
      ∃ t, (search_cards env name limit).2 =
        Event.throttleAcquire ::
          Event.request "GET" "/cards" (some (build_search_params name limit)) 0 :: t)
    ∧ (validate_search_limit 0 =
        .error (.validationError ("Limit must be " ++ "between 1 and 50"))
      ∧ validate_search_limit 51 =
        .error (.validationError ("Limit must be " ++ "between 1 and 50"))
      ∧ validate_search_limit 1 = .ok () ∧ validate_search_limit 50 = .ok ())
    ∧ (validate_filter_limit 0 =
        .error (.validationError "Limit must be between 1 and 100")
      ∧ validate_filter_limit 101 =
        .error (.validationError "Limit must be between 1 and 100")
      ∧ validate_filter_limit 1 = .ok () ∧ validate_filter_limit 100 = .ok ())
    ∧ (validate_random_count 0 =
        .error (.validationError "Count must be between 1 and 10")
      ∧ validate_random_count 11 =
        .error (.validationError "Count must be between 1 and 10")
      ∧ validate_random_count 1 = .ok () ∧ validate_random_count 10 = .ok ()) := by
  refine ⟨?_, ?_, ?_, ?_, ?_, ?_, ?_, ?_, ?_⟩
  · intro env name limit h
    have hv : validate_card_name name =
        .error (.validationError "Card name cannot be empty") := by
      simp [validate_card_name, h]
    simp [search_cards, hv]
  · intro env name limit h1 h2
    have hv1 : validate_card_name name = .ok () := by
      simp [validate_card_name, h1]
    have hv2 : validate_search_limit limit =
        .error (.validationError "Limit must be between 1 and 50") := by
      simp only [validate_search_limit, if_neg h2]
    simp [search_cards, hv1, hv2]
  · intro env card_id h
    have hv : validate_card_id card_id =
        .error (.validationError "Card ID cannot be empty") := by
      simp [validate_card_id, h]
    simp [get_card, hv]
  · intro env filters n hlim hb
    have hv : validate_filter_limit n =
        .error (.validationError "Limit must be between 1 and 100") := by
      simp only [validate_filter_limit, if_neg hb]
    simp [filter_cards, hlim, hv]
  · intro env count hb
    have hv : validate_random_count count =
        .error (.validationError "Count must be between 1 and 10") := by
      simp only [validate_random_count, if_neg hb]
    simp [get_random_cards, hv]
  · intro env name limit h1 h2 h3
    rw [search_cards_trace env name limit h1 h2 h3]
    exact makeRequest_trace_shape env "GET" "/cards"
      (some (build_search_params name limit))
  · exact ⟨rfl, rfl, rfl, rfl⟩
  · exact ⟨rfl, rfl, rfl, rfl⟩
  · exact ⟨rfl, rfl, rfl, rfl⟩

/-- C4 witness: empty name rejected with no events, at a concrete input. -/
theorem validation_before_any_request_witness :
    search_cards env404 "" 5 =
      (.raised (.validationError "Card name cannot be empty"), []) :=
  validation_before_any_request.1 env404 "" 5 (by decide)

/-- C6: the built filter params always contain the `pageSize` key, a
`colors` list is serialized to the comma-join of its elements
(["Red","Blue"] to "Red,Blue", [] to ""), and every key other than
`colors` passes through with its value unchanged. -/
theorem filter_params_shape :
    (∀ (filters : List (String × JValue)) (limit : JValue) (ps : Fields),
      (filters.map Prod.fst).Nodup →
      build_filter_params filters limit = some ps →
      ((dictGet ps "pageSize").isSome
        ∧ (∀ k v, (k, v) ∈ filters → k ≠ "colors" → dictGet ps k = some v)
        ∧ (∀ elems s, ("colors", JValue.arr elems) ∈ filters →
            joinComma elems = some s → dictGet ps "colors" = some (.str s))))
    ∧ build_filter_params [("colors", .arr [.str "Red", .str "Blue"])] (.num 10)
        = some [("pageSize", .num 10), ("colors", .str "Red,Blue")]
    ∧ build_filter_params [("colors", .arr [])] (.num 10)
        = some [("pageSize", .num 10), ("colors", .str "")] := by
  refine ⟨?_, rfl, rfl⟩
  intro filters limit ps hnd h
  simp only [build_filter_params] at h
  exact ⟨buildFilterLoop_isSome filters _ ps h "pageSize" (by simp [dictGet]),
    buildFilterLoop_mem filters _ ps hnd h,
    fun elems s hm hj =>
      buildFilterLoop_mem_colors filters _ ps hnd h elems s hm hj⟩

/-- C6 witness: a non-colors key passes through at a concrete input. -/
theorem filter_params_shape_witness :
    dictGet [("pageSize", JValue.num 20), ("type", JValue.str "Instant")]
      "type" = some (.str "Instant") :=
  (filter_params_shape.1 [("type", .str "Instant")] (.num 20)
      [("pageSize", .num 20), ("type", .str "Instant")]
      (by simp) rfl).2.1 "type" (.str "Instant") (by simp) (by decide)

/-- C7: conversion from upstream JSON to a Card or Set record is total by
construction (the Lean functions return a record for every input object)
and every absent key is replaced by its defined default: empty string for
id/name/code, empty list for colors/color-identity/supertypes/types/
subtypes, false for the online-only flag, null for all remaining fields. -/
theorem sparse_conversion_defaults :
    ∀ d : Fields,
      (dictGet d "id" = none → (convert_card_data d).id = .str "")
      ∧ (dictGet d "name" = none → (convert_card_data d).name = .str "")
      ∧ (dictGet d "manaCost" = none → (convert_card_data d).mana_cost = .null)
      ∧ (dictGet d "cmc" = none → (convert_card_data d).cmc = .null)
      ∧ (dictGet d "colors" = none → (convert_card_data d).colors = .arr [])
      ∧ (dictGet d "colorIdentity" = none →
          (convert_card_data d).color_identity = .arr [])
      ∧ (dictGet d "type" = none → (convert_card_data d).type = .null)
      ∧ (dictGet d "supertypes" = none →
          (convert_card_data d).supertypes = .arr [])
      ∧ (dictGet d "types" = none → (convert_card_data d).types = .arr [])
      ∧ (dictGet d "subtypes" = none → (convert_card_data d).subtypes = .arr [])
      ∧ (dictGet d "text" = none → (convert_card_data d).text = .null)
      ∧ (dictGet d "power" = none → (convert_card_data d).power = .null)
      ∧ (dictGet d "toughness" = none → (convert_card_data d).toughness = .null)
      ∧ (dictGet d "loyalty" = none → (convert_card_data d).loyalty = .null)
      ∧ (dictGet d "setName" = none → (convert_card_data d).set_name = .null)
      ∧ (dictGet d "set" = none → (convert_card_data d).set_code = .null)
      ∧ (dictGet d "rarity" = none → (convert_card_data d).rarity = .null)
      ∧ (dictGet d "imageUrl" = none → (convert_card_data d).image_url = .null)
      ∧ (dictGet d "code" = none → (convert_set_data d).code = .str "")
      ∧ (dictGet d "name" = none → (convert_set_data d).name = .str "")
      ∧ (dictGet d "type" = none → (convert_set_data d).type = .null)
      ∧ (dictGet d "releaseDate" = none →
          (convert_set_data d).release_date = .null)
      ∧ (dictGet d "block" = none → (convert_set_data d).block = .null)
      ∧ (dictGet d "onlineOnly" = none →
          (convert_set_data d).online_only = .bool false)
      ∧ (dictGet d "cardCount" = none →
          (convert_set_data d).card_count = .null) := by
  intro d
  refine ⟨?_, ?_, ?_, ?_, ?_, ?_, ?_, ?_, ?_, ?_, ?_, ?_, ?_, ?_, ?_, ?_, ?_,
    ?_, ?_, ?_, ?_, ?_, ?_, ?_, ?_⟩ <;>
    intro h <;> simp [convert_card_data, convert_set_data, h]

/-- C7 witness: the empty upstream object produces the id default. -/
theorem sparse_conversion_defaults_witness :
    (convert_card_data []).id = .str "" :=
  (sparse_conversion_defaults []).1 rfl

/-- C8: converting an upstream card object in which all 18 fields are
present and reading back each record field yields exactly the source
values, modulo the renaming manaCost→mana_cost, colorIdentity→
color_identity, setName→set_name, set→set_code, imageUrl→image_url. -/
theorem full_card_conversion_roundtrip :
    ∀ (d : Fields) (idv namev manav cmcv colorsv cidv typev supv typesv subv
        textv powerv toughv loyv snamev scodev rarv imgv : JValue),
      dictGet d "id" = some idv → dictGet d "name" = some namev →
      dictGet d "manaCost" = some manav → dictGet d "cmc" = some cmcv →
      dictGet d "colors" = some colorsv →
      dictGet d "colorIdentity" = some cidv →
      dictGet d "type" = some typev → dictGet d "supertypes" = some supv →
      dictGet d "types" = some typesv → dictGet d "subtypes" = some subv →
      dictGet d "text" = some textv → dictGet d "power" = some powerv →
      dictGet d "toughness" = some toughv → dictGet d "loyalty" = some loyv →
      dictGet d "setName" = some snamev → dictGet d "set" = some scodev →
      dictGet d "rarity" = some rarv → dictGet d "imageUrl" = some imgv →
      convert_card_data d =
        { id := idv, name := namev, mana_cost := manav, cmc := cmcv,
          colors := colorsv, color_identity := cidv, type := typev,
          supertypes := supv, types := typesv, subtypes := subv,
          text := textv, power := powerv, toughness := toughv,
          loyalty := loyv, set_name := snamev, set_code := scodev,
          rarity := rarv, image_url := imgv } := by
  intro d idv namev manav cmcv colorsv cidv typev supv typesv subv textv
    powerv toughv loyv snamev scodev rarv imgv h1 h2 h3 h4 h5 h6 h7 h8 h9
    h10 h11 h12 h13 h14 h15 h16 h17 h18
  simp [convert_card_data, h1, h2, h3, h4, h5, h6, h7, h8, h9, h10, h11,
    h12, h13, h14, h15, h16, h17, h18]

/-- C8 witness: round-trip at the full-field fixture object. -/
theorem full_card_conversion_roundtrip_witness :
    convert_card_data fullCardFixture =
      { id := .str "1", name := .str "Lightning Bolt", mana_cost := .str "R",
        cmc := .num 1, colors := .arr [.str "Red"],
        color_identity := .arr [.str "R"], type := .str "Instant",
        supertypes := .arr [], types := .arr [.str "Instant"],
        subtypes := .arr [], text := .str "Deals 3 damage to any target.",
        power := .null, toughness := .null, loyalty := .null,
        set_name := .str "Limited Edition Alpha", set_code := .str "LEA",
        rarity := .str "Common",
        image_url := .str "http://example.com/image.jpg" } :=
  full_card_conversion_roundtrip fullCardFixture _ _ _ _ _ _ _ _ _ _ _ _ _ _
    _ _ _ _ rfl rfl rfl rfl rfl rfl rfl rfl rfl rfl rfl rfl rfl rfl rfl rfl
    rfl rfl

/-- C9: for a non-empty card id, when the fetch-by-id request succeeds but
the `card` entry of the response body is absent or falsy (the upstream way of
carrying no card in a 200 body), `get_card` raises a not-found error whose
message is exactly "Card with ID {id} not found" for that id. -/
theorem get_card_missing_card_message :
    ∀ (env : Nat → AttemptResult) (card_id : String) (body : Fields)
      (t : List Event),
      pyStrip card_id ≠ "" →
      makeRequest env "GET" ("/cards/" ++ card_id) none = (.ok body, t) →
      ((dictGet body "card").getD .null).truthy = false →
      get_card env card_id =
        (.raised (.notFound ("Card with ID " ++ card_id ++ " not found")), t) := by
  intro env card_id body t hid hreq hcard
  have hv : validate_card_id card_id = .ok () := by
    simp [validate_card_id, hid]
  simp only [get_card, hv, hreq, hcard]
  simp

/-- C9 witness: a 200 response with an empty object body at id "abc". -/
theorem get_card_missing_card_message_witness :
    get_card env200empty "abc" =
      (.raised (.notFound ("Card with ID " ++ "abc" ++ " not found")),
        [.throttleAcquire, .request "GET" ("/cards/" ++ "abc") none 0]) :=
  get_card_missing_card_message env200empty "abc" []
    [.throttleAcquire, .request "GET" ("/cards/" ++ "abc") none 0]
    (by decide) rfl rfl

/-- On an in-bounds popped limit and a successfully built params dict,
`filter_cards` performs exactly the events of one request execution with
those params. -/
theorem filter_cards_trace (env : Nat → AttemptResult)
    (filters : List (String × JValue)) (n : Int) (ps : Fields)
    (hlim : (dictGet filters "limit").getD (.num 20) = .num n)
    (h2 : 1 ≤ n) (h3 : n ≤ 100)
    (hps : build_filter_params (dictRemove filters "limit") (.num n) = some ps) :
    (filter_cards env filters).2 =
      (makeRequest env "GET" "/cards" (some ps)).2 := by
  have hv : validate_filter_limit n = .ok () := by
    simp [validate_filter_limit, h2, h3]
  simp only [filter_cards, hlim, hv, hps]
  split <;> rfl

/-- C10: a `pageSize` entry of the filters mapping overwrites the
`pageSize` derived from the validated limit, so the outgoing
`pageSize` equals the caller-supplied filter value; that value is sent
unchecked — 500 lies outside the [1,100] bounds of the filter-limit
validator, yet `filter_cards` with a filters dict holding pageSize = 500 sends it. -/
theorem pagesize_passthrough_unvalidated :
    (∀ (filters : List (String × JValue)) (limit v : JValue) (ps : Fields),
      (filters.map Prod.fst).Nodup → ("pageSize", v) ∈ filters →
      build_filter_params filters limit = some ps →
      dictGet ps "pageSize" = some v)
    ∧ (∀ env : Nat → AttemptResult,
      ∃ t, (filter_cards env [("pageSize", JValue.num 500)]).2 =
        Event.throttleAcquire ::
          Event.request "GET" "/cards" (some [("pageSize", JValue.num 500)]) 0
          :: t)
    ∧ validate_filter_limit 500 =
        .error (.validationError "Limit must be between 1 and 100") := by
  refine ⟨?_, ?_, rfl⟩
  · intro filters limit v ps hnd hm h
    simp only [build_filter_params] at h
    exact buildFilterLoop_mem filters _ ps hnd h "pageSize" v hm (by decide)
  · intro env
    rw [filter_cards_trace env [("pageSize", JValue.num 500)] 20
      [("pageSize", JValue.num 500)] rfl (by norm_num) (by norm_num) rfl]
    exact makeRequest_trace_shape env "GET" "/cards"
      (some [("pageSize", JValue.num 500)])

/-- C10 witness: the overwrite at a concrete filters mapping. -/
theorem pagesize_passthrough_unvalidated_witness :
    dictGet [("pageSize", JValue.num 500)] "pageSize" =
      some (JValue.num 500) :=
  pagesize_passthrough_unvalidated.1 [("pageSize", JValue.num 500)]
    (.num 20) (.num 500) [("pageSize", JValue.num 500)]
    (by simp) (by simp) rfl

end MTG
